import Mathlib

/-!
Verification of the NetFlow version 7 packet codec (`packet_v7.go`).

The Go source under `src/` contains the version-7 header and flow-record
types together with their `Unmarshal`, `Bytes`, `Len` and `String`
methods.  The helpers they call (`readUint8`, `readUint16`, `readUint32`,
`readLongIPv4`, `structPack`, `structLen`, the `LongIPv4` address type and
the embedded `V1Header`) live in other files of the repository that are
not available here; those are modelled from the specification, and each
such definition carries a doc comment saying so.  Machine integers are
embedded as `Nat`; the byte source is a finite list of byte values
followed by either clean end-of-stream or an underlying fault.
-/

/-- Error conditions of the primitive field reader: `shortRead` when fewer
bytes are available than a field's declared width (including clean
end-of-stream), and `sourceFault` when the byte source itself reports a
fault, carrying an opaque fault code. -/
inductive NFError where
  | shortRead : NFError
  | sourceFault (code : Nat) : NFError
  deriving DecidableEq, Repr

/-- Modelled from the spec: the byte-oriented sequential input source (an
`io.Reader` in the source).  It yields a finite run of bytes; once they are
exhausted, a read either hits clean end-of-stream (`fault = none`) or the
source reports an underlying fault (`fault = some c`). -/
structure ByteSource where
  bytes : List Nat
  fault : Option Nat
  deriving DecidableEq, Repr

/-- Big-endian (network byte order) value of a byte list. -/
def beVal (bs : List Nat) : Nat :=
  bs.foldl (fun a b => a * 256 + b) 0

/-- Modelled from the spec: the core of the Primitive Field Reader
(spec section 4.1) — read exactly `n` bytes, or fail with `shortRead` on a
clean end-of-stream and with the underlying fault otherwise; no partial
value is returned on failure. -/
def readBytes (n : Nat) (src : ByteSource) : Except NFError (List Nat × ByteSource) :=
  if n ≤ src.bytes.length then
    Except.ok (src.bytes.take n, ⟨src.bytes.drop n, src.fault⟩)
  else
    match src.fault with
    | none => Except.error NFError.shortRead
    | some c => Except.error (NFError.sourceFault c)

/-- Modelled from the spec: read a `w`-byte unsigned integer in network
(big-endian) byte order. -/
def readUintW (w : Nat) (src : ByteSource) : Except NFError (Nat × ByteSource) :=
  match readBytes w src with
  | Except.ok (bs, rest) => Except.ok (beVal bs, rest)
  | Except.error e => Except.error e

/-- Modelled from the spec: `LongIPv4` is a 4-byte IPv4 address held in
network order; embedded as its 32-bit numeric value. -/
abbrev LongIPv4 := Nat

/-- Modelled from the spec: read one byte as an unsigned integer. -/
def readUint8 : ByteSource → Except NFError (Nat × ByteSource) := readUintW 1

/-- Modelled from the spec: read a 16-bit big-endian unsigned integer. -/
def readUint16 : ByteSource → Except NFError (Nat × ByteSource) := readUintW 2

/-- Modelled from the spec: read a 32-bit big-endian unsigned integer. -/
def readUint32 : ByteSource → Except NFError (Nat × ByteSource) := readUintW 4

/-- Modelled from the spec: read a 4-byte IPv4 address. -/
def readLongIPv4 : ByteSource → Except NFError (LongIPv4 × ByteSource) := readUintW 4

/-- `V7FlowRecord` is a NetFlow version 7 (Catalyst 5000) Flow Record
(packet_v7.go lines 28-71), fields in declaration order. -/
structure V7FlowRecord where
  SrcAddr : LongIPv4
  DstAddr : LongIPv4
  NextHop : LongIPv4
  Input : Nat
  Output : Nat
  Packets : Nat
  Octets : Nat
  First : Nat
  Last : Nat
  SrcPort : Nat
  DstPort : Nat
  Pad0 : Nat
  TCPFlags : Nat
  Protocol : Nat
  ToS : Nat
  SrcAS : Nat
  DstAS : Nat
  SrcMask : Nat
  DstMask : Nat
  Flags : Nat
  RouterSC : LongIPv4
  deriving DecidableEq, Repr

/-- `V7FlowRecord.Unmarshal` (packet_v7.go lines 85-148): field reads in
the exact order written in the source.  Note: the source reads `Pad0` and
then immediately `Protocol`; no read ever assigns `TCPFlags`.  The receiver
`r` is the record the Go method mutates in place; the result carries the
final receiver state, the remaining byte source, and the returned error
(`none` on success). -/
def V7FlowRecord.Unmarshal (r : V7FlowRecord) (src : ByteSource) :
    V7FlowRecord × ByteSource × Option NFError :=
  match readLongIPv4 src with
  | Except.error e => (r, src, some e)
  | Except.ok (v, src) =>
    let r := { r with SrcAddr := v }
    match readLongIPv4 src with
    | Except.error e => (r, src, some e)
    | Except.ok (v, src) =>
      let r := { r with DstAddr := v }
      match readLongIPv4 src with
      | Except.error e => (r, src, some e)
      | Except.ok (v, src) =>
        let r := { r with NextHop := v }
        match readUint16 src with
        | Except.error e => (r, src, some e)
        | Except.ok (v, src) =>
          let r := { r with Input := v }
          match readUint16 src with
          | Except.error e => (r, src, some e)
          | Except.ok (v, src) =>
            let r := { r with Output := v }
            match readUint32 src with
            | Except.error e => (r, src, some e)
            | Except.ok (v, src) =>
              let r := { r with Packets := v }
              match readUint32 src with
              | Except.error e => (r, src, some e)
              | Except.ok (v, src) =>
                let r := { r with Octets := v }
                match readUint32 src with
                | Except.error e => (r, src, some e)
                | Except.ok (v, src) =>
                  let r := { r with First := v }
                  match readUint32 src with
                  | Except.error e => (r, src, some e)
                  | Except.ok (v, src) =>
                    let r := { r with Last := v }
                    match readUint16 src with
                    | Except.error e => (r, src, some e)
                    | Except.ok (v, src) =>
                      let r := { r with SrcPort := v }
                      match readUint16 src with
                      | Except.error e => (r, src, some e)
                      | Except.ok (v, src) =>
                        let r := { r with DstPort := v }
                        match readUint16 src with
                        | Except.error e => (r, src, some e)
                        | Except.ok (v, src) =>
                          let r := { r with Pad0 := v }
                          match readUint8 src with
                          | Except.error e => (r, src, some e)
                          | Except.ok (v, src) =>
                            let r := { r with Protocol := v }
                            match readUint8 src with
                            | Except.error e => (r, src, some e)
                            | Except.ok (v, src) =>
                              let r := { r with ToS := v }
                              match readUint16 src with
                              | Except.error e => (r, src, some e)
                              | Except.ok (v, src) =>
                                let r := { r with SrcAS := v }
                                match readUint16 src with
                                | Except.error e => (r, src, some e)
                                | Except.ok (v, src) =>
                                  let r := { r with DstAS := v }
                                  match readUint8 src with
                                  | Except.error e => (r, src, some e)
                                  | Except.ok (v, src) =>
                                    let r := { r with SrcMask := v }
                                    match readUint8 src with
                                    | Except.error e => (r, src, some e)
                                    | Except.ok (v, src) =>
                                      let r := { r with DstMask := v }
                                      match readUint16 src with
                                      | Except.error e => (r, src, some e)
                                      | Except.ok (v, src) =>
                                        let r := { r with Flags := v }
                                        match readLongIPv4 src with
                                        | Except.error e => (r, src, some e)
                                        | Except.ok (v, src) =>
                                          let r := { r with RouterSC := v }
                                          (r, src, none)

/-- The widths and field assignments performed by `V7FlowRecord.Unmarshal`,
in the order the source performs them (note: no entry assigns `TCPFlags`;
the source never reads it). -/
def v7Fields : List (Nat × (V7FlowRecord → Nat → V7FlowRecord)) :=
  [(4, fun r v => { r with SrcAddr := v }),
   (4, fun r v => { r with DstAddr := v }),
   (4, fun r v => { r with NextHop := v }),
   (2, fun r v => { r with Input := v }),
   (2, fun r v => { r with Output := v }),
   (4, fun r v => { r with Packets := v }),
   (4, fun r v => { r with Octets := v }),
   (4, fun r v => { r with First := v }),
   (4, fun r v => { r with Last := v }),
   (2, fun r v => { r with SrcPort := v }),
   (2, fun r v => { r with DstPort := v }),
   (2, fun r v => { r with Pad0 := v }),
   (1, fun r v => { r with Protocol := v }),
   (1, fun r v => { r with ToS := v }),
   (2, fun r v => { r with SrcAS := v }),
   (2, fun r v => { r with DstAS := v }),
   (1, fun r v => { r with SrcMask := v }),
   (1, fun r v => { r with DstMask := v }),
   (2, fun r v => { r with Flags := v }),
   (4, fun r v => { r with RouterSC := v })]

/-- The canonical stop-at-first-error sequential decoder: perform the reads
of `fs` in order; on the first failing primitive read, stop at once and
return exactly that read's error, attempting no later read. -/
def foldRead : List (Nat × (V7FlowRecord → Nat → V7FlowRecord)) →
    V7FlowRecord → ByteSource → V7FlowRecord × ByteSource × Option NFError
  | [], r, src => (r, src, none)
  | (w, st) :: rest, r, src =>
    match readUintW w src with
    | Except.error e => (r, src, some e)
    | Except.ok (v, src2) => foldRead rest (st r v) src2

/-- Simulate the primitive reads of the given widths in order and return
the error of the first read that fails, if any. -/
def firstReadError : List Nat → ByteSource → Option NFError
  | [], _ => none
  | w :: ws, src =>
    match readUintW w src with
    | Except.error e => some e
    | Except.ok (_, src2) => firstReadError ws src2

lemma unmarshal_eq_foldRead (r : V7FlowRecord) (src : ByteSource) :
    V7FlowRecord.Unmarshal r src = foldRead v7Fields r src := rfl

lemma foldRead_error_eq (fs : List (Nat × (V7FlowRecord → Nat → V7FlowRecord))) :
    ∀ r src, (foldRead fs r src).2.2 = firstReadError (fs.map (fun p => p.1)) src := by
  induction fs with
  | nil => intro r src; rfl
  | cons p rest ih =>
    intro r src
    obtain ⟨w, st⟩ := p
    simp only [foldRead, firstReadError, List.map]
    cases h : readUintW w src with
    | error e => rfl
    | ok q =>
      obtain ⟨v, src2⟩ := q
      exact ih (st r v) src2

lemma foldRead_fixes_tcpflags (fs : List (Nat × (V7FlowRecord → Nat → V7FlowRecord))) :
    (∀ p ∈ fs, ∀ r v, ((p.2) r v).TCPFlags = r.TCPFlags) →
    ∀ r src, ((foldRead fs r src).1).TCPFlags = r.TCPFlags := by
  induction fs with
  | nil => intro _ r src; rfl
  | cons p rest ih =>
    intro hfs r src
    obtain ⟨w, st⟩ := p
    simp only [foldRead]
    cases h : readUintW w src with
    | error e => rfl
    | ok q =>
      obtain ⟨v, src2⟩ := q
      have h1 := ih (fun q hq => hfs q (List.mem_cons_of_mem _ hq)) (st r v) src2
      rw [h1]
      exact hfs (w, st) (List.mem_cons_self _ _) r v

/-- The widths of the primitive reads `V7FlowRecord.Unmarshal` performs, in
source order; they sum to 52 because the source never reads `TCPFlags`. -/
def v7ReadWidths : List Nat :=
  [4, 4, 4, 2, 2, 4, 4, 4, 4, 2, 2, 2, 1, 1, 2, 2, 1, 1, 2, 4]

/-- Modelled from the spec: big-endian serialization of a value into
exactly `w` bytes (the Generic Struct Codec emits each field as an unsigned
big-endian integer of its declared width, spec section 4.3). -/
def beBytes : Nat → Nat → List Nat
  | 0, _ => []
  | w + 1, v => beBytes w (v / 256) ++ [v % 256]

lemma beBytes_length (w : Nat) : ∀ v, (beBytes w v).length = w := by
  induction w with
  | zero => intro v; rfl
  | succ n ih => intro v; simp [beBytes, ih]

/-- The declared widths of the version-7 flow record's fields, in struct
declaration order (this layout includes the one-byte `TCPFlags` field, so
the widths sum to 53). -/
def v7FieldWidths : List Nat :=
  [4, 4, 4, 2, 2, 4, 4, 4, 4, 2, 2, 2, 1, 1, 1, 2, 2, 1, 1, 2, 4]

/-- Modelled from the spec: `structPack`, the Generic Struct Codec's encode
path specialized to `V7FlowRecord` — serialize every field in declaration
order at its declared width (spec section 4.3). -/
def structPack (r : V7FlowRecord) : List Nat :=
  beBytes 4 r.SrcAddr ++ beBytes 4 r.DstAddr ++ beBytes 4 r.NextHop ++
  beBytes 2 r.Input ++ beBytes 2 r.Output ++
  beBytes 4 r.Packets ++ beBytes 4 r.Octets ++
  beBytes 4 r.First ++ beBytes 4 r.Last ++
  beBytes 2 r.SrcPort ++ beBytes 2 r.DstPort ++ beBytes 2 r.Pad0 ++
  beBytes 1 r.TCPFlags ++ beBytes 1 r.Protocol ++ beBytes 1 r.ToS ++
  beBytes 2 r.SrcAS ++ beBytes 2 r.DstAS ++
  beBytes 1 r.SrcMask ++ beBytes 1 r.DstMask ++
  beBytes 2 r.Flags ++ beBytes 4 r.RouterSC

/-- Modelled from the spec: `structLen`, the Generic Struct Codec's sizing
path — purely a function of the layout's declared widths, independent of
the record's field values (spec section 4.3). -/
def structLen (_ : V7FlowRecord) : Nat :=
  v7FieldWidths.sum

/-- `V7FlowRecord.Bytes` (packet_v7.go lines 73-75). -/
def V7FlowRecord.Bytes (r : V7FlowRecord) : List Nat :=
  structPack r

/-- `V7FlowRecord.Len` (packet_v7.go lines 77-79). -/
def V7FlowRecord.Len (r : V7FlowRecord) : Nat :=
  structLen r

/-- Modelled from the spec: the Address Type's canonical dotted-decimal
rendering built from the four bytes in order (spec section 4.2); the
`LongIPv4` rendering code is not under `src/`. -/
def ipString (v : Nat) : String :=
  toString (v / 16777216 % 256) ++ "." ++ toString (v / 65536 % 256) ++ "." ++
  toString (v / 256 % 256) ++ "." ++ toString (v % 256)

/-- `V7FlowRecord.String` (packet_v7.go lines 81-83): the 5-tuple-like
summary built purely from the record's fields. -/
def V7FlowRecord.String (r : V7FlowRecord) : String :=
  ipString r.SrcAddr ++ "/" ++ toString r.SrcMask ++ ":" ++ toString r.SrcPort ++
  " -> " ++ ipString r.DstAddr ++ "/" ++ toString r.DstMask ++ ":" ++ toString r.DstPort

/-- Modelled from the spec: `V1Header`, the shared base header embedded in
`V7Header`.  The spec does not enumerate the shared base fields beyond the
16-bit version tag, so the remaining base fields are collapsed into
`baseRest` (their values in order). -/
structure V1Header where
  Version : Nat
  baseRest : List Nat
  deriving DecidableEq, Repr

/-- `V7Header` (packet_v7.go lines 11-15): the embedded `V1Header` base
plus a flow-sequence counter and a reserved field. -/
structure V7Header extends V1Header where
  FlowSequence : Nat
  Reserved : Nat
  deriving DecidableEq, Repr

/-- `V7Header.GetVersion` (packet_v7.go lines 17-19). -/
def V7Header.GetVersion (h : V7Header) : Nat :=
  h.Version

/-- `V7Header.SetVersion` (packet_v7.go lines 21-23). -/
def V7Header.SetVersion (h : V7Header) (v : Nat) : V7Header :=
  { h with Version := v }

/-- The all-zero version-7 flow record (the zero value of the Go struct). -/
def zeroRecord : V7FlowRecord :=
  ⟨0, 0, 0, 0, 0, 0, 0, 0, 0, 0, 0, 0, 0, 0, 0, 0, 0, 0, 0, 0, 0⟩

/-- A fully populated sample record with pairwise distinct small field
values, numbered in struct declaration order. -/
def sampleRecord : V7FlowRecord :=
  ⟨1, 2, 3, 4, 5, 6, 7, 8, 9, 10, 11, 12, 13, 14, 15, 16, 17, 18, 19, 20, 21⟩

/-- Claim C1: refuted on the code — `V7FlowRecord.Unmarshal` never reads or
populates the `TCPFlags` field; on every input the decoded record's
`TCPFlags` is whatever the receiver held before the call, so the field is
skipped rather than populated exactly once in protocol order. -/
theorem unmarshal_never_populates_tcpflags (r : V7FlowRecord) (src : ByteSource) :
    ((V7FlowRecord.Unmarshal r src).1).TCPFlags = r.TCPFlags := by
  rw [unmarshal_eq_foldRead]
  refine foldRead_fixes_tcpflags v7Fields ?_ r src
  intro p hp
  fin_cases hp <;> exact fun r v => rfl

/-- Claim C2: refuted on the code — a 52-byte stream (strictly shorter than
53 bytes) decodes successfully with no error, because `Unmarshal` reads
only 52 bytes (it skips `TCPFlags`). -/
theorem unmarshal_accepts_52_byte_stream :
    V7FlowRecord.Unmarshal zeroRecord ⟨List.replicate 52 0, none⟩ =
      (zeroRecord, ⟨[], none⟩, none) := by
  decide

/-- Claim C3: for every version-7 flow record `r`, `Len r` equals the
length of the byte slice produced by `Bytes r`, and both equal 53
regardless of the field values. -/
theorem len_eq_bytes_length_and_53 (r : V7FlowRecord) :
    V7FlowRecord.Len r = (V7FlowRecord.Bytes r).length ∧ V7FlowRecord.Len r = 53 := by
  have hb : (V7FlowRecord.Bytes r).length = 53 := by
    simp [V7FlowRecord.Bytes, structPack, beBytes_length]
  exact ⟨by rw [hb]; rfl, rfl⟩

/-- Claim C4: refuted on the code — decoding the 53-byte encoding of
`sampleRecord` succeeds but yields a different record: the encoder writes
`TCPFlags` (value 13) at offset 38, the decoder never reads `TCPFlags` and
instead decodes that byte as `Protocol`, so the decoded `Protocol` is 13
while `sampleRecord.Protocol` is 14 and the round trip fails. -/
theorem decode_encode_roundtrip_fails :
    (V7FlowRecord.Unmarshal zeroRecord ⟨V7FlowRecord.Bytes sampleRecord, none⟩).2.2 = none ∧
    ((V7FlowRecord.Unmarshal zeroRecord ⟨V7FlowRecord.Bytes sampleRecord, none⟩).1).Protocol = 13 ∧
    sampleRecord.Protocol = 14 ∧
    (V7FlowRecord.Unmarshal zeroRecord ⟨V7FlowRecord.Bytes sampleRecord, none⟩).1 ≠ sampleRecord := by
  decide

/-- Claim C5: `V7FlowRecord.Unmarshal` is extensionally the canonical
stop-at-first-error sequential decoder `foldRead v7Fields`: it performs the
primitive reads in order, stops at the first failing read, attempts no
later field, and the returned error is exactly that read's error — the
function's result carries no decoded record on failure, only the error and
the caller-owned receiver state. -/
theorem unmarshal_stops_at_first_error (r : V7FlowRecord) (src : ByteSource) :
    V7FlowRecord.Unmarshal r src = foldRead v7Fields r src :=
  unmarshal_eq_foldRead r src

/-- Claim C6: decoding from an empty source with clean end-of-stream fails
with `shortRead` raised on the very first field read (the source address):
the receiver is returned completely unchanged, so no other field was
attempted. -/
theorem unmarshal_empty_stream_shortread (r : V7FlowRecord) :
    V7FlowRecord.Unmarshal r ⟨[], none⟩ = (r, ⟨[], none⟩, some NFError.shortRead) :=
  rfl

/-- Claim C7: `String` renders the summary `srcAddr/srcMask:srcPort ->
dstAddr/dstMask:dstPort` purely from the record's fields, and the record
with source 192.168.1.1 mask 24 port 80 and destination 10.0.0.1 mask 16
port 443 renders exactly as claimed. -/
theorem string_renders_summary :
    (∀ r : V7FlowRecord, V7FlowRecord.String r =
      ipString r.SrcAddr ++ "/" ++ toString r.SrcMask ++ ":" ++ toString r.SrcPort ++
      " -> " ++ ipString r.DstAddr ++ "/" ++ toString r.DstMask ++ ":" ++ toString r.DstPort) ∧
    V7FlowRecord.String
      ⟨3232235777, 167772161, 0, 0, 0, 0, 0, 0, 0, 80, 443, 0, 0, 0, 0, 0, 0, 24, 16, 0, 0⟩ =
      "192.168.1.1/24:80 -> 10.0.0.1/16:443" :=
  ⟨fun _ => rfl, by decide⟩

/-- Claim C8: `Len` is a pure function of the layout, not of field values —
any two version-7 records, however their fields differ, have equal `Len`
(and, the embedding being pure, repeated calls trivially agree and are
unaffected by `Bytes`). -/
theorem len_layout_only (r₁ r₂ : V7FlowRecord) :
    V7FlowRecord.Len r₁ = V7FlowRecord.Len r₂ :=
  rfl

/-- Claim C9: the error returned by `Unmarshal` is exactly the error
produced by the first failing primitive read of its read sequence
(`v7ReadWidths`), propagated unmodified — whether that is `shortRead` or an
underlying source fault — with no retry, recovery or resynchronization. -/
theorem unmarshal_error_propagates_unmodified (r : V7FlowRecord) (src : ByteSource) :
    (V7FlowRecord.Unmarshal r src).2.2 = firstReadError v7ReadWidths src := by
  rw [unmarshal_eq_foldRead, foldRead_error_eq]
  rfl

/-- Claim C10: for every header `h` and 16-bit value `v`, `SetVersion v`
followed by `GetVersion` returns `v`, and `SetVersion` changes only the
version field: `FlowSequence`, `Reserved` and the remaining base-header
fields are unchanged. -/
theorem setVersion_roundtrip_frame (h : V7Header) (v : Nat) (_hv : v < 65536) :
    (h.SetVersion v).GetVersion = v ∧
    (h.SetVersion v).FlowSequence = h.FlowSequence ∧
    (h.SetVersion v).Reserved = h.Reserved ∧
    (h.SetVersion v).baseRest = h.baseRest :=
  ⟨rfl, rfl, rfl, rfl⟩

/-- Witness for claim C10 at a concrete header and version value. -/
theorem setVersion_roundtrip_frame_witness :
    (7 : Nat) < 65536 ∧
    (((V7Header.mk ⟨1, [2, 3]⟩ 4 5).SetVersion 7).GetVersion = 7 ∧
     ((V7Header.mk ⟨1, [2, 3]⟩ 4 5).SetVersion 7).FlowSequence = (V7Header.mk ⟨1, [2, 3]⟩ 4 5).FlowSequence ∧
     ((V7Header.mk ⟨1, [2, 3]⟩ 4 5).SetVersion 7).Reserved = (V7Header.mk ⟨1, [2, 3]⟩ 4 5).Reserved ∧
     ((V7Header.mk ⟨1, [2, 3]⟩ 4 5).SetVersion 7).baseRest = (V7Header.mk ⟨1, [2, 3]⟩ 4 5).baseRest) :=
  ⟨by decide, setVersion_roundtrip_frame (V7Header.mk ⟨1, [2, 3]⟩ 4 5) 7 (by decide)⟩
